import Mathlib

/-!
Verification of the roc-go-lab RPC client/server (src/client.go, src/server.go).

The Go programs exchange one JSON request and one JSON response per TCP
connection.  This file gives a shallow embedding of the pure request/response
logic of both programs:

* JSON values decoded by encoding/json into interface values are modelled by
  the inductive type `Value`; Go float64 payloads are modelled as exact
  rationals (all JSON numbers occurring in the claims are exactly
  representable as float64), and the Go map for params is modelled as an
  optional association list (`none` models the Go nil map).
* Go int (64-bit) arithmetic that can overflow is wrapped with `wrap64`,
  which reduces an integer modulo 2^64 into [-2^63, 2^63).
* The network, logging and clock are external: `processRequest` receives the
  formatted current time as the argument `now`, and `handleConn` receives the
  result of decoding the single incoming request (`none` models a JSON decode
  failure).  Connection closing (a defer in Go) is outside the state modelled
  here.
-/

/-- ASCII/Unicode rune-wise lower casing as performed by Go strings.ToLower.
Go maps each rune through unicode.ToLower (simple lower-case mapping).  The
only runes whose Go lower case is an ASCII character are the ASCII letters
A-Z, U+0130 (mapped to i) and U+212A (Kelvin sign, mapped to k); all those
are mapped here, and every other rune is kept unchanged, so comparisons of
the lower-cased string against ASCII literals agree with Go on every input
string. -/
def goLowerChar (c : Char) : Char :=
  if 0x41 ≤ c.toNat ∧ c.toNat ≤ 0x5A then Char.ofNat (c.toNat + 32)
  else if c.toNat = 0x130 then Char.ofNat 0x69
  else if c.toNat = 0x212A then Char.ofNat 0x6B
  else c

/-- Model of strings.ToLower (rune-wise simple lower-case mapping). -/
def goToLower (s : String) : String := ⟨s.data.map goLowerChar⟩

/-- Model of the Unicode White_Space property used by unicode.IsSpace in Go:
U+0009..U+000D, U+0020, U+0085, U+00A0, U+1680, U+2000..U+200A, U+2028,
U+2029, U+205F and U+3000. -/
def goIsSpace (c : Char) : Bool :=
  (decide (0x9 ≤ c.toNat) && decide (c.toNat ≤ 0xD)) || decide (c.toNat = 0x20) ||
  decide (c.toNat = 0x85) || decide (c.toNat = 0xA0) || decide (c.toNat = 0x1680) ||
  (decide (0x2000 ≤ c.toNat) && decide (c.toNat ≤ 0x200A)) ||
  decide (c.toNat = 0x2028) || decide (c.toNat = 0x2029) ||
  decide (c.toNat = 0x205F) || decide (c.toNat = 0x3000)

/-- Model of strings.TrimSpace: remove leading and trailing white-space
runes (used by the client on the response request_id, client.go line 102). -/
def goTrimSpace (s : String) : String :=
  ⟨((s.data.dropWhile goIsSpace).reverse.dropWhile goIsSpace).reverse⟩

/-- Reduce an integer into the 64-bit two-complement range [-2^63, 2^63),
modelling wrap-around of Go int/int64/time.Duration arithmetic. -/
def wrap64 (n : ℤ) : ℤ :=
  (n + 9223372036854775808) % 18446744073709551616 - 9223372036854775808

/-- Dynamically typed JSON value as decoded by encoding/json into a Go
interface value.  `num` models float64 (JSON numbers) as an exact rational;
`int` models a Go int held in an interface (the int case of asInt in
server.go); `obj` models map[string]interface and `arr` models a slice. -/
inductive Value where
  | num : ℚ → Value
  | int : ℤ → Value
  | str : String → Value
  | bool : Bool → Value
  | null : Value
  | obj : List (String × Value) → Value
  | arr : List Value → Value

/-- Params of a request: Go map[string]interface, which may be nil.  `none`
models the nil map (params absent or JSON null). -/
abbrev Params := Option (List (String × Value))

/-- Lookup in a possibly-nil Go map: indexing a nil map yields (zero, false),
so the lookup simply fails when the map is nil. -/
def pget (p : Params) (k : String) : Option Value :=
  (p.getD []).lookup k

/-- Request envelope (struct Request in client.go and server.go):
request_id, method, params, timestamp (advisory). -/
structure Request where
  requestID : String
  method : String
  params : Params
  timestamp : String := ""

/-- Response envelope (struct Response in client.go and server.go).
`result` is the Result interface field: `none` models the nil interface
(which the json tag omitempty omits from the wire); `error` is the Error
string field (omitted from the wire when empty). -/
structure Response where
  requestID : String
  result : Option Value := none
  status : String := ""
  error : String := ""

/-- Truncation of a Go float64 toward zero, as performed by the Go
conversion int(t).  For a rational num/den this is T-division of the
numerator by the denominator. -/
def truncQ (q : ℚ) : ℤ := Int.tdiv q.num q.den

/-- Digits of a base-10 number: all characters must be ASCII digits and at
least one digit is required (helper for the strconv.Atoi model). -/
def parseDigits : List Char → Option ℕ
  | [] => none
  | l =>
    if l.all (fun c => decide (48 ≤ c.toNat) && decide (c.toNat ≤ 57))
    then some (l.foldl (fun acc c => 10 * acc + (c.toNat - 48)) 0)
    else none

/-- Model of strconv.Atoi: an optional sign followed by at least one decimal
digit, with the value required to fit in a 64-bit Go int (out-of-range
values make Atoi return a non-nil error, which both call sites treat as
failure). -/
def goAtoi (s : String) : Option ℤ :=
  match s.data with
  | [] => none
  | '+' :: rest =>
    match parseDigits rest with
    | some n => if n ≤ 9223372036854775807 then some (n : ℤ) else none
    | none => none
  | '-' :: rest =>
    match parseDigits rest with
    | some n => if n ≤ 9223372036854775808 then some (-(n : ℤ)) else none
    | none => none
  | l =>
    match parseDigits l with
    | some n => if n ≤ 9223372036854775807 then some (n : ℤ) else none
    | none => none

/-- asInt (server.go lines 166-178): numeric coercion of an interface value.
float64 is converted with int(t) (truncation toward zero), int is passed
through, and a string is parsed with strconv.Atoi; every other type, and a
string Atoi rejects, yields the error "not an integer". -/
def asInt : Value → Except String ℤ
  | Value.num t => Except.ok (truncQ t)
  | Value.int t => Except.ok t
  | Value.str t =>
    match goAtoi t with
    | some iv => Except.ok iv
    | none => Except.error "not an integer"
  | _ => Except.error "not an integer"

/-- getTwoInts (server.go lines 146-164): fetch params ka and kb and coerce
both with asInt, producing the same error strings as the Go code. -/
def getTwoInts (params : Params) (ka kb : String) : Except String (ℤ × ℤ) :=
  match pget params ka with
  | none => Except.error ("missing param \x27" ++ ka ++ "\x27")
  | some av =>
    match pget params kb with
    | none => Except.error ("missing param \x27" ++ kb ++ "\x27")
    | some bv =>
      match asInt av with
      | Except.error e => Except.error ("param \x27" ++ ka ++ "\x27 error: " ++ e)
      | Except.ok a =>
        match asInt bv with
        | Except.error e => Except.error ("param \x27" ++ kb ++ "\x27 error: " ++ e)
        | Except.ok b => Except.ok (a, b)

/-- reverseString (server.go lines 180-186): the Go code converts the string
to a rune slice and swaps r[i] and r[j] for i from the front and j from the
back until they meet, which reverses the sequence of runes. -/
def reverseString (s : String) : String := ⟨s.data.reverse⟩

/-- processRequest (server.go lines 88-144): dispatch on the lower-cased
method name.  The response starts as Response{RequestID: req.RequestID} and
each branch fills status and result or error; the switch has no crash case,
so crash falls into the default branch.  `now` stands for the formatted
time.Now() used by the get_time branch; the slow branch also sleeps, a side
effect outside this model, and its response text is modelled. -/
def processRequest (now : String) (req : Request) : Response :=
  if goToLower req.method = "add" then
    match getTwoInts req.params "a" "b" with
    | Except.error e => { requestID := req.requestID, status := "ERROR", error := e }
    | Except.ok (a, b) =>
      { requestID := req.requestID, result := some (Value.int (wrap64 (a + b))), status := "OK" }
  else if goToLower req.method = "reverse_string" then
    match pget req.params "s" with
    | none => { requestID := req.requestID, status := "ERROR", error := "missing param \x27s\x27" }
    | some sv =>
      match sv with
      | Value.str s =>
        { requestID := req.requestID, result := some (Value.str (reverseString s)), status := "OK" }
      | _ => { requestID := req.requestID, status := "ERROR", error := "param \x27s\x27 must be string" }
  else if goToLower req.method = "get_time" then
    { requestID := req.requestID, result := some (Value.str now), status := "OK" }
  else if goToLower req.method = "slow" then
    let secs : ℤ :=
      match pget req.params "sleep" with
      | some (Value.num t) => truncQ t
      | some (Value.str t) =>
        match goAtoi t with
        | some v => v
        | none => 5
      | _ => 5
    { requestID := req.requestID,
      result := some (Value.str ("slept " ++ toString secs ++ " seconds")), status := "OK" }
  else if goToLower req.method = "echo" then
    { requestID := req.requestID,
      result := some (match req.params with | none => Value.null | some m => Value.obj m),
      status := "OK" }
  else
    { requestID := req.requestID, status := "ERROR",
      error := "unknown method \x27" ++ req.method ++ "\x27" }

/-- sendError (server.go lines 189-196): build and encode an ERROR response
with the given request id and message. -/
def sendError (reqID msg : String) : Response :=
  { requestID := reqID, status := "ERROR", error := msg }

/-- Result of one server connection: the response the handler encodes,
whether a decoded request was dispatched through processRequest, and whether
the process exits afterwards (the crash fault-injection path). -/
structure ConnResult where
  sent : Response
  dispatched : Bool
  exits : Bool

/-- handleConn (server.go lines 57-86): decode one request (`none` models a
decode failure), on failure send the synthesized error envelope with empty
request id and return without dispatching; on success dispatch through
processRequest, encode the response, and exit the process if the method is
crash (the connection is closed by a defer in every case). -/
def handleConn (now : String) (decoded : Option Request) : ConnResult :=
  match decoded with
  | none => { sent := sendError "" "invalid json", dispatched := false, exits := false }
  | some req =>
    { sent := processRequest now req, dispatched := true,
      exits := decide (goToLower req.method = "crash") }

/-- Keys present in the JSON encoding of a response.  The struct tags are
request_id (always), result with omitempty (an interface field is omitted
exactly when it is the nil interface, our `none`), status (always), error
with omitempty (a string field is omitted exactly when it is empty).  An
absent optional field is omitted rather than encoded as null by
construction of omitempty. -/
def encodedKeys (r : Response) : List String :=
  ["request_id"] ++ (if r.result.isSome then ["result"] else []) ++ ["status"] ++
  (if r.error = "" then [] else ["error"])

/-- Post-decode validation of one client attempt, from sendRequest
(client.go lines 101-109): after a response is decoded, the attempt fails
with a correlation error when the white-space-trimmed response request_id
differs from the request id, then fails with a server error when the status
is not OK; only a matching OK response is a success.  (The Go function also
returns the response value alongside the server error; only the error/
success distinction is modelled.) -/
def sendRequestCheck (req : Request) (resp : Response) : Except String Response :=
  if goTrimSpace resp.requestID ≠ req.requestID then
    Except.error ("mismatched request id in response: got " ++ resp.requestID ++
      " expected " ++ req.requestID)
  else if resp.status ≠ "OK" then Except.error ("server error: " ++ resp.error)
  else Except.ok resp

/-- randInt (client.go lines 126-134): jitter helper.  It returns min when
max ≤ min, and otherwise min + b mod (max - min + 1) where b is one random
byte (0..255); both operands of the Go % are non-negative here, so % agrees
with the Euclidean remainder. -/
def randInt (min max : ℤ) (b0 : ℕ) : ℤ :=
  if max ≤ min then min else min + (b0 : ℤ) % (max - min + 1)

/-- Backoff before the next attempt, in nanoseconds (client.go line 69):
time.Duration(200 * (1 << uint(attempt-1))) * time.Millisecond, with Go int
arithmetic wrapping at 64 bits (a shift by 64 or more yields 0, which equals
2^(k-1) reduced modulo 2^64). -/
def backoffNs (k : ℕ) : ℤ :=
  wrap64 (wrap64 (200 * wrap64 ((2 : ℤ) ^ (k - 1))) * 1000000)

/-- Total sleep before the next attempt, in nanoseconds (client.go lines
69-71): backoff plus time.Duration(randInt(0, 200)) * time.Millisecond,
where b0 is the random byte drawn for the jitter of this attempt. -/
def sleepNs (k : ℕ) (b0 : ℕ) : ℤ :=
  wrap64 (backoffNs k + randInt 0 200 b0 * 1000000)

/-- Trace of the retry loop: the 1-based indices of the attempts performed,
the sleeps performed between and after failed attempts in order, and whether
the loop ended in success. -/
structure RetryTrace where
  calls : List ℕ
  sleeps : List ℤ
  ok : Bool

/-- One step of the retry loop of client main (client.go lines 56-73),
by remaining loop iterations: at each attempt invoke the sender; on success
return at once; on failure sleep backoff + jitter and continue with the next
attempt.  `send` gives the outcome of each attempt and `jb` the random jitter
byte drawn at each attempt. -/
def retryAux (send : ℕ → Bool) (jb : ℕ → ℕ) : ℕ → ℕ → RetryTrace
  | _, 0 => { calls := [], sleeps := [], ok := false }
  | attempt, n + 1 =>
    if send attempt then { calls := [attempt], sleeps := [], ok := true }
    else
      let r := retryAux send jb (attempt + 1) n
      { calls := attempt :: r.calls, sleeps := sleepNs attempt (jb attempt) :: r.sleeps,
        ok := r.ok }

/-- The retry loop of client main: for attempt := 1; attempt ≤ maxRetries;
attempt++ (client.go lines 56-73). -/
def retryLoop (maxRetries : ℕ) (send : ℕ → Bool) (jb : ℕ → ℕ) : RetryTrace :=
  retryAux send jb 1 maxRetries

/-- A string with a non-empty left part stays non-empty after
concatenation. -/
theorem append_ne_empty_left (p m : String) (hp : p.length ≠ 0) : p ++ m ≠ "" := by
  intro h
  have h2 := congrArg String.length h
  rw [String.length_append] at h2
  have h5 : ("" : String).length = 0 := rfl
  omega

/-- Every error message produced by getTwoInts for params a and b is a
non-empty string. -/
theorem getTwoInts_error_ne (p : Params) (e : String)
    (h : getTwoInts p "a" "b" = Except.error e) : e ≠ "" := by
  unfold getTwoInts at h
  split at h
  · simp at h; subst h; decide
  · split at h
    · simp at h; subst h; decide
    · split at h
      · simp at h; subst h
        exact append_ne_empty_left _ _ (by decide)
      · split at h
        · simp at h; subst h
          exact append_ne_empty_left _ _ (by decide)
        · simp at h

/-- The unknown-method message is never empty. -/
theorem unknown_msg_ne (m : String) : "unknown method \x27" ++ m ++ "\x27" ≠ "" := by
  intro h
  have h2 := congrArg String.length h
  rw [String.length_append, String.length_append] at h2
  have h3 : ("unknown method \x27" : String).length = 16 := rfl
  have h4 : ("\x27" : String).length = 1 := rfl
  have h5 : ("" : String).length = 0 := rfl
  omega

/-- The missing-param message of the reverse_string branch is non-empty. -/
theorem missing_s_ne : ("missing param \x27s\x27" : String) ≠ "" := by decide

/-- The type-error message of the reverse_string branch is non-empty. -/
theorem must_string_ne : ("param \x27s\x27 must be string" : String) ≠ "" := by decide

/-- Shape of every dispatched response: the request id is echoed, and the
response is either an OK response with a result and no error message, or an
ERROR response with no result and a non-empty error message. -/
theorem processRequest_shape (now : String) (req : Request) :
    (processRequest now req).requestID = req.requestID ∧
    (((processRequest now req).status = "OK" ∧
        (processRequest now req).result.isSome = true ∧
        (processRequest now req).error = "") ∨
      ((processRequest now req).status = "ERROR" ∧
        (processRequest now req).result = none ∧
        (processRequest now req).error ≠ "")) := by
  unfold processRequest
  by_cases h1 : goToLower req.method = "add"
  · rw [if_pos h1]
    cases hg : getTwoInts req.params "a" "b" with
    | error e =>
      exact ⟨rfl, Or.inr ⟨rfl, rfl, getTwoInts_error_ne _ _ hg⟩⟩
    | ok ab =>
      obtain ⟨a, b⟩ := ab
      exact ⟨rfl, Or.inl ⟨rfl, rfl, rfl⟩⟩
  · rw [if_neg h1]
    by_cases h2 : goToLower req.method = "reverse_string"
    · rw [if_pos h2]
      cases hs : pget req.params "s" with
      | none => exact ⟨rfl, Or.inr ⟨rfl, rfl, missing_s_ne⟩⟩
      | some sv =>
        cases sv with
        | str s => exact ⟨rfl, Or.inl ⟨rfl, rfl, rfl⟩⟩
        | num t => exact ⟨rfl, Or.inr ⟨rfl, rfl, must_string_ne⟩⟩
        | int t => exact ⟨rfl, Or.inr ⟨rfl, rfl, must_string_ne⟩⟩
        | bool b => exact ⟨rfl, Or.inr ⟨rfl, rfl, must_string_ne⟩⟩
        | null => exact ⟨rfl, Or.inr ⟨rfl, rfl, must_string_ne⟩⟩
        | obj m => exact ⟨rfl, Or.inr ⟨rfl, rfl, must_string_ne⟩⟩
        | arr l => exact ⟨rfl, Or.inr ⟨rfl, rfl, must_string_ne⟩⟩
    · rw [if_neg h2]
      by_cases h3 : goToLower req.method = "get_time"
      · rw [if_pos h3]; exact ⟨rfl, Or.inl ⟨rfl, rfl, rfl⟩⟩
      · rw [if_neg h3]
        by_cases h4 : goToLower req.method = "slow"
        · rw [if_pos h4]; exact ⟨rfl, Or.inl ⟨rfl, rfl, rfl⟩⟩
        · rw [if_neg h4]
          by_cases h5 : goToLower req.method = "echo"
          · rw [if_pos h5]; exact ⟨rfl, Or.inl ⟨rfl, rfl, rfl⟩⟩
          · rw [if_neg h5]
            exact ⟨rfl, Or.inr ⟨rfl, rfl, unknown_msg_ne req.method⟩⟩

/-- Claim C7: reverse_string reversal is an involution: reversing the rune
sequence of any string twice yields the original string. -/
theorem C7_reverse_involution (s : String) : reverseString (reverseString s) = s := by
  cases s with
  | mk d =>
    show String.mk d.reverse.reverse = String.mk d
    rw [List.reverse_reverse]

/-- Claim C6: on a decode failure the handler sends the synthesized ERROR
envelope built by sendError with an empty request id and the message
"invalid json", dispatches no handler, and does not exit the process. -/
theorem C6_decode_failure (now : String) :
    (handleConn now none).sent = sendError "" "invalid json" ∧
    (handleConn now none).sent.requestID = "" ∧
    (handleConn now none).sent.status = "ERROR" ∧
    (handleConn now none).dispatched = false ∧
    (handleConn now none).exits = false :=
  ⟨rfl, rfl, rfl, rfl, rfl⟩

/-- Claim C9: for every successfully decoded request the dispatched response
echoes the request id and carries status OK or ERROR, never any other
value. -/
theorem C9_dispatch_invariants (now : String) (req : Request) :
    (processRequest now req).requestID = req.requestID ∧
    ((processRequest now req).status = "OK" ∨ (processRequest now req).status = "ERROR") := by
  obtain ⟨h1, h2⟩ := processRequest_shape now req
  exact ⟨h1, h2.imp (fun h => h.1) (fun h => h.1)⟩

/-- Claim C5: a request whose lower-cased method is none of add,
reverse_string, get_time, slow, echo, crash is answered by the default
branch: status ERROR, the message naming the unrecognized method, the
request id preserved, and no result. -/
theorem C5_unknown_method (now : String) (req : Request)
    (h1 : goToLower req.method ≠ "add")
    (h2 : goToLower req.method ≠ "reverse_string")
    (h3 : goToLower req.method ≠ "get_time")
    (h4 : goToLower req.method ≠ "slow")
    (h5 : goToLower req.method ≠ "echo")
    (_h6 : goToLower req.method ≠ "crash") :
    processRequest now req =
      { requestID := req.requestID, result := none, status := "ERROR",
        error := "unknown method \x27" ++ req.method ++ "\x27" } := by
  unfold processRequest
  rw [if_neg h1, if_neg h2, if_neg h3, if_neg h4, if_neg h5]

/-- Witness for C5 at the concrete method frobnicate. -/
theorem C5_witness :
    processRequest "" { requestID := "w5", method := "frobnicate", params := none } =
      { requestID := "w5", result := none, status := "ERROR",
        error := "unknown method \x27frobnicate\x27" } := by
  exact C5_unknown_method "" _ (by decide) (by decide) (by decide) (by decide)
    (by decide) (by decide)

/-- The result key is encoded exactly when the Result interface field is not
the nil interface. -/
theorem result_mem_encodedKeys (r : Response) :
    ("result" ∈ encodedKeys r) ↔ r.result.isSome = true := by
  unfold encodedKeys
  by_cases h : r.result.isSome = true <;> by_cases h2 : r.error = "" <;> simp [h, h2]

/-- The error key is encoded exactly when the Error string field is
non-empty. -/
theorem error_mem_encodedKeys (r : Response) :
    ("error" ∈ encodedKeys r) ↔ r.error ≠ "" := by
  unfold encodedKeys
  by_cases h : r.result.isSome = true <;> by_cases h2 : r.error = "" <;> simp [h, h2]

/-- Claim C8: in every response envelope the server encodes (both the
dispatched responses and the decode-failure envelope), the result key is
present iff status is OK and the error key is present iff status is ERROR;
absent optional fields are omitted from the encoding rather than emitted as
null (encodedKeys lists exactly the keys that appear on the wire). -/
theorem C8_field_presence (now : String) (decoded : Option Request) :
    (("result" ∈ encodedKeys (handleConn now decoded).sent) ↔
      (handleConn now decoded).sent.status = "OK") ∧
    (("error" ∈ encodedKeys (handleConn now decoded).sent) ↔
      (handleConn now decoded).sent.status = "ERROR") := by
  cases decoded with
  | none =>
    have hs : (handleConn now none).sent = sendError "" "invalid json" := rfl
    rw [hs]
    decide
  | some req =>
    have hs : (handleConn now (some req)).sent = processRequest now req := rfl
    rw [hs]
    obtain ⟨-, hsh⟩ := processRequest_shape now req
    rcases hsh with ⟨hok, hres, herr⟩ | ⟨herrst, hres, herr⟩
    · constructor
      · rw [result_mem_encodedKeys, hres, hok]; decide
      · rw [error_mem_encodedKeys, herr, hok]; decide
    · constructor
      · rw [result_mem_encodedKeys, hres, herrst]; decide
      · rw [error_mem_encodedKeys]
        exact iff_of_true herr herrst

/-- When both params coerce, the add branch answers OK with the wrapped
64-bit sum of the coerced integers. -/
theorem add_ok (now : String) (req : Request) (va vb : Value) (x y : ℤ)
    (hm : goToLower req.method = "add") (ha : pget req.params "a" = some va)
    (hb : pget req.params "b" = some vb) (hx : asInt va = Except.ok x)
    (hy : asInt vb = Except.ok y) :
    processRequest now req =
      { requestID := req.requestID, result := some (Value.int (wrap64 (x + y))),
        status := "OK", error := "" } := by
  have hg : getTwoInts req.params "a" "b" = Except.ok (x, y) := by
    simp only [getTwoInts, ha, hb, hx, hy]
  unfold processRequest
  rw [if_pos hm, hg]

/-- When coercion of a param fails, the add branch answers ERROR with the
coercion error message. -/
theorem add_err (now : String) (req : Request) (e : String)
    (hm : goToLower req.method = "add")
    (hg : getTwoInts req.params "a" "b" = Except.error e) :
    processRequest now req =
      { requestID := req.requestID, result := none, status := "ERROR", error := e } := by
  unfold processRequest
  rw [if_pos hm, hg]

/-- The slow branch with a float sleep param truncates the float toward zero
and reports the truncated number of seconds. -/
theorem slow_num (now : String) (req : Request) (q : ℚ)
    (hm : goToLower req.method = "slow")
    (hs : pget req.params "sleep" = some (Value.num q)) :
    processRequest now req =
      { requestID := req.requestID,
        result := some (Value.str ("slept " ++ toString (truncQ q) ++ " seconds")),
        status := "OK", error := "" } := by
  unfold processRequest
  rw [hm]
  rw [if_neg (by decide), if_neg (by decide), if_neg (by decide), if_pos rfl, hs]

/-- Claim C4 (amended): the add operation coerces params with integer
coercion: floats are truncated toward zero, strings must parse as decimal
integers, and on success the result is the 64-bit sum of the coerced
values; when coercion fails (booleans, nulls, non-integer strings) the
response is a type ERROR with the coercion message. -/
theorem C4_add_coercion :
    (∀ (now : String) (req : Request) (va vb : Value) (x y : ℤ),
        goToLower req.method = "add" → pget req.params "a" = some va →
        pget req.params "b" = some vb → asInt va = Except.ok x →
        asInt vb = Except.ok y →
        processRequest now req =
          { requestID := req.requestID, result := some (Value.int (wrap64 (x + y))),
            status := "OK", error := "" }) ∧
    (∀ (now : String) (req : Request) (e : String),
        goToLower req.method = "add" →
        getTwoInts req.params "a" "b" = Except.error e →
        processRequest now req =
          { requestID := req.requestID, result := none, status := "ERROR", error := e }) ∧
    (∀ b, asInt (Value.bool b) = Except.error "not an integer") ∧
    (asInt Value.null = Except.error "not an integer") ∧
    (asInt (Value.str "hello") = Except.error "not an integer") :=
  ⟨fun now req va vb x y hm ha hb hx hy => add_ok now req va vb x y hm ha hb hx hy,
   fun now req e hm hg => add_err now req e hm hg,
   fun b => by cases b <;> rfl, rfl, rfl⟩

/-- Counterexample to C4 as stated: the numeric string "2.5" is rejected as
a type error instead of contributing to an arithmetic sum. -/
theorem C4_counterexample :
    (processRequest ""
        { requestID := "c4", method := "add",
          params := some [("a", Value.str "2.5"), ("b", Value.num (mkRat 7 1))] }).status =
      "ERROR" ∧
    (processRequest ""
        { requestID := "c4", method := "add",
          params := some [("a", Value.str "2.5"), ("b", Value.num (mkRat 7 1))] }).error =
      "param \x27a\x27 error: not an integer" :=
  ⟨rfl, rfl⟩

/-- Witness for C4 at a concrete call: 5.9 and the string "7" coerce to 5
and 7 and add gives 12. -/
theorem C4_witness :
    processRequest ""
        { requestID := "w4", method := "add",
          params := some [("a", Value.num (mkRat 59 10)), ("b", Value.str "7")] } =
      { requestID := "w4", result := some (Value.int 12), status := "OK", error := "" } := by
  exact C4_add_coercion.1 "" _ (Value.num (mkRat 59 10)) (Value.str "7") 5 7 rfl rfl rfl rfl rfl

/-- Claim C10: numeric coercion truncates floats toward zero before use:
for add the result is trunc(a) + trunc(b) (5.9 and 7.2 give 5 and 7),
fractional numeric strings such as "2.5" are rejected as non-integers, and
the slow branch truncates a float sleep value to whole seconds. -/
theorem C10_truncation :
    (∀ (now : String) (req : Request) (q1 q2 : ℚ),
        goToLower req.method = "add" →
        pget req.params "a" = some (Value.num q1) →
        pget req.params "b" = some (Value.num q2) →
        processRequest now req =
          { requestID := req.requestID,
            result := some (Value.int (wrap64 (truncQ q1 + truncQ q2))),
            status := "OK", error := "" }) ∧
    (truncQ (mkRat 59 10) = 5 ∧ truncQ (mkRat 36 5) = 7 ∧ truncQ (mkRat (-59) 10) = -5) ∧
    (goAtoi "2.5" = none ∧ asInt (Value.str "2.5") = Except.error "not an integer") ∧
    (∀ (now : String) (req : Request) (q : ℚ),
        goToLower req.method = "slow" →
        pget req.params "sleep" = some (Value.num q) →
        processRequest now req =
          { requestID := req.requestID,
            result := some (Value.str ("slept " ++ toString (truncQ q) ++ " seconds")),
            status := "OK", error := "" }) :=
  ⟨fun now req q1 q2 hm ha hb => add_ok now req _ _ _ _ hm ha hb rfl rfl,
   ⟨by decide, by decide, by decide⟩, ⟨rfl, rfl⟩,
   fun now req q hm hs => slow_num now req q hm hs⟩

/-- Witness for C10: add of 5.9 and 7.2 gives 12, and slow with a float
sleep of 2.5 reports 2 whole seconds. -/
theorem C10_witness :
    (processRequest ""
        { requestID := "wa", method := "add",
          params := some [("a", Value.num (mkRat 59 10)), ("b", Value.num (mkRat 36 5))] } =
      { requestID := "wa", result := some (Value.int 12), status := "OK", error := "" }) ∧
    (processRequest ""
        { requestID := "ws", method := "slow",
          params := some [("sleep", Value.num (mkRat 5 2))] } =
      { requestID := "ws", result := some (Value.str "slept 2 seconds"),
        status := "OK", error := "" }) := by
  constructor
  · exact C10_truncation.1 "" _ (mkRat 59 10) (mkRat 36 5) rfl rfl rfl
  · exact C10_truncation.2.2.2 "" _ (mkRat 5 2) rfl rfl

/-- Claim C1 (amended): an attempt is a success only when the
white-space-trimmed response request id equals the request id, and every
response whose trimmed request id differs is rejected with the mismatch
error regardless of its status. -/
theorem C1_correlation (req : Request) (resp : Response) :
    ((∃ r, sendRequestCheck req resp = Except.ok r) →
      goTrimSpace resp.requestID = req.requestID) ∧
    (goTrimSpace resp.requestID ≠ req.requestID →
      sendRequestCheck req resp =
        Except.error ("mismatched request id in response: got " ++ resp.requestID ++
          " expected " ++ req.requestID)) := by
  unfold sendRequestCheck
  by_cases h : goTrimSpace resp.requestID = req.requestID
  · rw [if_neg (not_not_intro h)]
    constructor
    · intro _; exact h
    · intro hc; exact absurd h hc
  · rw [if_pos h]
    constructor
    · rintro ⟨r, hr⟩; simp at hr
    · intro _; rfl

/-- Counterexample to C1 as stated: a response whose request id differs
from the request id by a leading space is accepted as a success because the
client compares after strings.TrimSpace. -/
theorem C1_counterexample :
    sendRequestCheck { requestID := "abc-123", method := "add", params := none }
        { requestID := " abc-123", result := some (Value.int 12), status := "OK" } =
      Except.ok { requestID := " abc-123", result := some (Value.int 12), status := "OK" } ∧
    (" abc-123" : String) ≠ "abc-123" :=
  ⟨rfl, by decide⟩

/-- Witness for C1 at a concrete mismatched pair. -/
theorem C1_witness :
    sendRequestCheck { requestID := "abc", method := "add", params := none }
        { requestID := "xyz", status := "OK" } =
      Except.error "mismatched request id in response: got xyz expected abc" := by
  exact (C1_correlation _ _).2 (by decide)

/-- When every attempt fails, the retry loop performs attempts s, s+1, ...
for the remaining budget and sleeps after every one of them, the last
included. -/
theorem retryAux_all_fail (send : ℕ → Bool) (jb : ℕ → ℕ) (h : ∀ k, send k = false) :
    ∀ n s : ℕ,
      retryAux send jb s n =
        { calls := List.range' s n,
          sleeps := (List.range' s n).map (fun k => sleepNs k (jb k)),
          ok := false } := by
  intro n
  induction n with
  | zero => intro s; rfl
  | succ m ih =>
    intro s
    have hr : List.range' s (m + 1) = s :: List.range' (s + 1) m := rfl
    simp [retryAux, h, ih, hr]

/-- Claim C2 (amended): when all attempts fail, the retry loop performs
exactly attempts 1..maxRetries (never a further one), sleeps backoff plus
jitter after every failed attempt including the final one, and ends without
success (main then reports the exhaustion). -/
theorem C2_retry_exhaustion (maxRetries : ℕ) (send : ℕ → Bool) (jb : ℕ → ℕ)
    (h : ∀ k, send k = false) :
    (retryLoop maxRetries send jb).calls = List.range' 1 maxRetries ∧
    (retryLoop maxRetries send jb).sleeps =
      (List.range' 1 maxRetries).map (fun k => sleepNs k (jb k)) ∧
    (retryLoop maxRetries send jb).ok = false ∧
    maxRetries + 1 ∉ (retryLoop maxRetries send jb).calls := by
  have H := retryAux_all_fail send jb h maxRetries 1
  rw [retryLoop, H]
  refine ⟨rfl, rfl, rfl, ?_⟩
  simp only [List.mem_range'_1]
  omega

/-- Counterexample to C2 as stated: with a budget of one attempt the single
attempt is the final one, yet the loop still sleeps after its failure. -/
theorem C2_counterexample :
    (retryLoop 1 (fun _ => false) (fun _ => 0)).sleeps ≠ [] := by decide

/-- Witness for C2 with two always-failing attempts. -/
theorem C2_witness :
    (retryLoop 2 (fun _ => false) (fun _ => 0)).calls = [1, 2] ∧
    (retryLoop 2 (fun _ => false) (fun _ => 0)).sleeps = [sleepNs 1 0, sleepNs 2 0] ∧
    (retryLoop 2 (fun _ => false) (fun _ => 0)).ok = false ∧
    3 ∉ (retryLoop 2 (fun _ => false) (fun _ => 0)).calls := by
  exact C2_retry_exhaustion 2 (fun _ => false) (fun _ => 0) (fun _ => rfl)

/-- wrap64 is the identity on the non-negative part of the int64 range. -/
theorem wrap64_id (n : ℤ) (h0 : 0 ≤ n) (h1 : n < 9223372036854775808) :
    wrap64 n = n := by
  unfold wrap64
  rw [Int.emod_eq_of_lt (by omega) (by omega)]
  omega

/-- Claim C3 (amended): whenever the backoff plus the maximal jitter fits
in the non-negative int64 range, the sleep before the next attempt after a
failed attempt k is at least base * 2^(k-1) and at most
base * 2^(k-1) + jitter bound (the jitter byte modulo 201 can reach 200
exactly, so the upper bound is inclusive), with base 200ms and jitter
bound 200ms in nanoseconds. -/
theorem C3_backoff_bounds (k b0 : ℕ) (_hk : 1 ≤ k)
    (hfit : (200 * 2 ^ (k - 1) + 200) * 1000000 < (9223372036854775808 : ℤ)) :
    200 * 2 ^ (k - 1) * 1000000 ≤ sleepNs k b0 ∧
    sleepNs k b0 ≤ (200 * 2 ^ (k - 1) + 200) * 1000000 := by
  have hexp : ((200 * 2 ^ (k - 1) + 200) * 1000000 : ℤ) =
      200 * 2 ^ (k - 1) * 1000000 + 200000000 := by ring
  rw [hexp] at hfit
  have hB0 : (0 : ℤ) ≤ 2 ^ (k - 1) := by positivity
  have hBle : (2 : ℤ) ^ (k - 1) ≤ 200 * 2 ^ (k - 1) * 1000000 := by nlinarith [hB0]
  have hBle2 : 200 * (2 : ℤ) ^ (k - 1) ≤ 200 * 2 ^ (k - 1) * 1000000 := by nlinarith [hB0]
  have hj0 : (0 : ℤ) ≤ randInt 0 200 b0 := by
    unfold randInt
    rw [if_neg (by norm_num)]
    have := Int.emod_nonneg (b0 : ℤ) (by norm_num : (200 - 0 + 1 : ℤ) ≠ 0)
    omega
  have hj1 : randInt 0 200 b0 ≤ 200 := by
    unfold randInt
    rw [if_neg (by norm_num)]
    have := Int.emod_lt_of_pos (b0 : ℤ) (by norm_num : (0 : ℤ) < 200 - 0 + 1)
    omega
  have e1 : wrap64 ((2 : ℤ) ^ (k - 1)) = 2 ^ (k - 1) :=
    wrap64_id _ hB0 (by linarith)
  have e2 : wrap64 (200 * (2 : ℤ) ^ (k - 1)) = 200 * 2 ^ (k - 1) :=
    wrap64_id _ (by positivity) (by linarith)
  have e3 : wrap64 (200 * (2 : ℤ) ^ (k - 1) * 1000000) = 200 * 2 ^ (k - 1) * 1000000 :=
    wrap64_id _ (by positivity) (by linarith)
  have hback : backoffNs k = 200 * 2 ^ (k - 1) * 1000000 := by
    unfold backoffNs
    rw [e1, e2, e3]
  have e4 : wrap64 (backoffNs k + randInt 0 200 b0 * 1000000) =
      backoffNs k + randInt 0 200 b0 * 1000000 := by
    rw [hback]
    exact wrap64_id _ (by nlinarith [hB0, hj0]) (by nlinarith [hj1])
  unfold sleepNs
  rw [e4, hback]
  constructor
  · nlinarith [hj0]
  · nlinarith [hj1]

/-- Counterexample to C3 as stated: with jitter byte 200 the sleep after
attempt 1 equals base + jitter bound exactly, so the strict upper bound
fails. -/
theorem C3_counterexample :
    sleepNs 1 200 = 400000000 ∧
    ¬ (sleepNs 1 200 < (200 * 2 ^ (1 - 1) + 200) * 1000000) := by
  constructor <;> decide

/-- Witness for C3 at attempt 1 with jitter byte 7. -/
theorem C3_witness :
    ((1 : ℕ) ≤ 1 ∧ ((200 * 2 ^ (1 - 1 : ℕ) + 200) * 1000000 : ℤ) < 9223372036854775808) ∧
    (200 * 2 ^ (1 - 1 : ℕ) * 1000000 ≤ sleepNs 1 7 ∧
      sleepNs 1 7 ≤ (200 * 2 ^ (1 - 1 : ℕ) + 200) * 1000000) :=
  ⟨⟨le_refl 1, by decide⟩, C3_backoff_bounds 1 7 (le_refl 1) (by decide)⟩
